import Mathlib

/-!
Verification development for the Smoothificator repository.

The repository holds two near-duplicate G-code rewriting engines:
`Smoothificator.py` (fixed-height policy) and `Smoothificator_Adaptive.py`
(adaptive policy).  Python floats are modelled as exact rationals (`ℚ`);
Python's `round` builtin and the `:.Nf` f-string formatting both round
half to even, modelled by `roundHalfEven` below.  Fallible control flow
(`sys.exit(1)`, an uncaught `ZeroDivisionError`) is modelled with `Except`.

Each definition carries a reference `[Fixed:n]` / `[Adaptive:n]` to the
source line in `Smoothificator.py` / `Smoothificator_Adaptive.py` it
translates.
-/

/-- Round half to even, the rounding used by Python's `round` builtin and
by `:.Nf` f-string formatting of a value that is exactly representable.
`⌊q⌋` when the fractional part is below 1/2, `⌊q⌋ + 1` when above, and the
even neighbour at an exact tie. -/
def roundHalfEven (q : ℚ) : ℤ :=
  if q - (⌊q⌋ : ℚ) < 1/2 then ⌊q⌋
  else if 1/2 < q - (⌊q⌋ : ℚ) then ⌊q⌋ + 1
  else if ⌊q⌋ % 2 = 0 then ⌊q⌋ else ⌊q⌋ + 1

/-- The value printed by f-string formatting with 5 decimal places
(`f"...:.5f"`), as a rational: round half to even at the 5th decimal. -/
def round5 (q : ℚ) : ℚ := (roundHalfEven (q * 100000) : ℚ) / 100000

/-- The value printed by f-string formatting with 3 decimal places
(`f"...:.3f"`), as a rational: round half to even at the 3rd decimal. -/
def round3 (q : ℚ) : ℚ := (roundHalfEven (q * 1000) : ℚ) / 1000

/-- The extrusion value emitted for one pass:
`new_e_value = e_value * extrusion_multiplier` formatted with `:.5f`
[Fixed:139-140] [Adaptive:228-229]. -/
def scaledE (e mult : ℚ) : ℚ := round5 (e * mult)

/-! ### Header metadata extraction, at string level

`get_layer_height` [Fixed:33-40] [Adaptive:40-47] and
`get_min_layer_height` [Adaptive:49-56] work on the raw line text:
a case-insensitive containment test, then an unanchored case-insensitive
regex search `'; layer_height = (\d*\.?\d+)'` capturing the number. -/

/-- Numeric value of a digit list (most significant first). -/
def digitsVal (ds : List Char) : ℕ :=
  ds.foldl (fun a c => 10 * a + (c.toNat - 48)) 0

/-- Match the regex fragment `\d*\.?\d+` at the head of `cs`, returning the
captured value.  Greedy digits, then an optional decimal point followed by
at least one digit; a trailing bare dot is not consumed (on `12.` the
regex matches `12`). -/
def numHere (cs : List Char) : Option ℚ :=
  let d1 := cs.takeWhile Char.isDigit
  let r1 := cs.drop d1.length
  match r1 with
  | '.' :: r2 =>
    let d2 := r2.takeWhile Char.isDigit
    if 0 < d2.length then
      some ((digitsVal d1 : ℚ) + (digitsVal d2 : ℚ) / (10 : ℚ) ^ d2.length)
    else if 0 < d1.length then some ((digitsVal d1 : ℚ)) else none
  | _ => if 0 < d1.length then some ((digitsVal d1 : ℚ)) else none

/-- Leftmost search for the literal `key` followed by a number
(`re.search` semantics: the earliest position where the whole pattern
matches wins; a position where the literal matches but no number follows
is skipped, as the regex engine moves on). -/
def searchKeyNum (key : List Char) : List Char → Option ℚ
  | [] => none
  | c :: rest =>
    if key.isPrefixOf (c :: rest) then
      match numHere ((c :: rest).drop key.length) with
      | some v => some v
      | none => searchKeyNum key rest
    else searchKeyNum key rest

/-- Whether `needle` occurs as a contiguous subsequence of the haystack
(Python's `in` operator on strings). -/
def containsSeq (needle : List Char) : List Char → Bool
  | [] => needle.isEmpty
  | c :: rest => needle.isPrefixOf (c :: rest) || containsSeq needle rest

/-- One line of the header scan: Python's
`if contKey in line.lower(): match = re.search(fullKey + number, line, IGNORECASE)`.
Both tests are case-insensitive, so both run on the lowered text; the
captured digits are unaffected by lowering. -/
def lineKeyNum (contKey fullKey : String) (line : String) : Option ℚ :=
  let low := line.data.map Char.toLower
  if containsSeq contKey.data low then searchKeyNum fullKey.data low else none

/-- `get_layer_height` [Fixed:33-40] [Adaptive:40-47]: value of the first
line on which the regex `'; layer_height = (\d*\.?\d+)'` (IGNORECASE,
unanchored) matches; `None` when no line matches. -/
def getLayerHeight (lines : List String) : Option ℚ :=
  lines.findSome? (lineKeyNum "layer_height =" "; layer_height = ")

/-- `get_min_layer_height` [Adaptive:49-56], same shape with the
`min_layer_height` field. -/
def getMinLayerHeight (lines : List String) : Option ℚ :=
  lines.findSome? (lineKeyNum "min_layer_height =" "; min_layer_height = ")

/-! ### The line model

A G-code line is represented by its raw text together with the results of
every textual test the two engines perform on a line.  Each field mirrors
one containment / `startswith` / regex test of the source; the `raw` field
is the line text itself and is what the header extractor above consumes.
For lines synthesised by the rewriter the fields are set to what the
emitted f-string template parses to. -/
structure GLine where
  /-- The raw line text (with trailing newline where the source has one). -/
  raw : String := ""
  /-- `re.search(r';\s*CHANGE_LAYER|;\s*LAYER_CHANGE', line)` [Adaptive:97]. -/
  isLayerChangeMarker : Bool := false
  /-- Result of the layer-height look-ahead test [Adaptive:101-107]: the
  value captured by `;HEIGHT:([\d.]+)` when `";HEIGHT:"` occurs in the
  line, else the value captured by `; LAYER_HEIGHT: ([\d.]+)` when
  `"; LAYER_HEIGHT: "` occurs, else `none`.  A line carrying a tag whose
  number fails to parse also yields `none` (the look-ahead continues). -/
  heightLookahead : Option ℚ := none
  /-- `line.startswith("G1 Z")` [Fixed:85]. -/
  startsWithG1Z : Bool := false
  /-- Value captured by `re.search(r'Z([-\d.]+)', line)` [Fixed:86]. -/
  zCaptureFixed : Option ℚ := none
  /-- Value captured by `re.search(r'G1.*?\bZ([-0-9.]+)(?=\s|$)', line)`
  [Adaptive:119-120]. -/
  zMatchAdaptive : Option ℚ := none
  /-- `";TYPE:External perimeter" in line` [Fixed:96] [Adaptive:131]. -/
  hasTypeExternalPerimeter : Bool := false
  /-- `";TYPE:Outer wall" in line` [Fixed:96] [Adaptive:131]. -/
  hasTypeOuterWall : Bool := false
  /-- `"; FEATURE: Outer wall" in line` [Adaptive:131]. -/
  hasFeatureOuterWall : Bool := false
  /-- `";TYPE:" in line` (block boundary test) [Fixed:101] [Adaptive:137]. -/
  hasTypeTag : Bool := false
  /-- `"; FEATURE:" in line` [Adaptive:137]. -/
  hasFeatureTag : Bool := false
  /-- `"Overhang" in line` [Adaptive:137]. -/
  hasOverhang : Bool := false
  /-- `"Outer" in line` [Adaptive:137]. -/
  hasOuter : Bool := false
  /-- `line.startswith(";Z")` [Adaptive:137]. -/
  startsSemiZ : Bool := false
  /-- `line.startswith("M991")` [Adaptive:137]. -/
  startsM991 : Bool := false
  /-- `"M" in line` [Fixed:101]. -/
  hasM : Bool := false
  /-- `"M73" in line` [Fixed:101]. -/
  hasM73 : Bool := false
  /-- `"G1" in line` [Fixed:114,135] [Adaptive:196,224]. -/
  hasG1 : Bool := false
  /-- `"G2" in line` [Adaptive:224]. -/
  hasG2 : Bool := false
  /-- `"G3" in line` [Adaptive:224]. -/
  hasG3 : Bool := false
  /-- `"X" in line` [Fixed:114] [Adaptive:196]. -/
  hasX : Bool := false
  /-- `"Y" in line` [Fixed:114] [Adaptive:196]. -/
  hasY : Bool := false
  /-- `"E" in line` [Fixed:135] [Adaptive:224]. -/
  hasE : Bool := false
  /-- Value captured by `re.search(r'X([-\d.]+)', line)` [Fixed:115]
  [Adaptive:197]. -/
  xCapture : Option ℚ := none
  /-- Value captured by `re.search(r'Y([-\d.]+)', line)` [Fixed:116]
  [Adaptive:198]. -/
  yCapture : Option ℚ := none
  /-- Value captured by `re.search(r'E([-\d.]+)', line)` [Fixed:136]
  [Adaptive:225]. -/
  eCapture : Option ℚ := none
  /-- The numeric value `v` such that the line matches
  `r'G1.*\bZ' + re.escape(text of v) + r'\b'` for some spelling of `v`, if
  any [Adaptive:230].  The source compares the line's Z literal textually
  against `str(current_z)` with leading/trailing zeros stripped; this model
  compares the parsed values, which agrees whenever the stripped text of
  `current_z` is the line's Z spelling.  Every line in this development has
  `none` here, so the comparison is never exercised. -/
  g1zLiteral : Option ℚ := none
  /-- Whether the raw text contains the `"; Travel back to start"` comment
  that only the rewriter's travel template emits [Fixed:128] [Adaptive:217]. -/
  travelTag : Bool := false
  /-- The `(p, N)` of a `"; Pass p of N"` comment in the raw text, which
  only the rewriter's Z-move template emits [Fixed:131] [Adaptive:220]. -/
  passTag : Option (ℕ × ℤ) := none
  deriving DecidableEq, Repr

/-- A line with every test negative; also the out-of-range default for
indexed access (the loops never index out of range). -/
def defaultGLine : GLine := {}

instance : Inhabited GLine := ⟨defaultGLine⟩

/-! ### The pass planners -/

/-- Fixed-height policy [Fixed:70]:
`passes_needed = round(base_layer_height / outer_layer_height)`.
Python's `round` rounds half to even, and there is no minimum clamp. -/
def fixedPassCount (base target : ℚ) : ℤ := roundHalfEven (base / target)

/-- Fixed-height policy [Fixed:71]:
`height_per_pass = base_layer_height / passes_needed`.  When the count is
`0` the Python program instead dies with `ZeroDivisionError`; the process
wrapper below models that exit. -/
def fixedHeightPerPass (base target : ℚ) : ℚ := base / (fixedPassCount base target : ℚ)

/-- Fixed-height policy [Fixed:72]:
`extrusion_multiplier = 1.0 / passes_needed`. -/
def fixedMultiplier (base target : ℚ) : ℚ := 1 / (fixedPassCount base target : ℚ)

/-- Decision of the adaptive planner for one wall segment. -/
structure PassPlan where
  passes : ℤ
  heightPerPass : ℚ
  extrusionMult : ℚ
  deriving DecidableEq, Repr

/-- Adaptive policy [Adaptive:148-190], for current layer height `h` and
target height `t`.  When `h > t` the planner compares the deviation from
`t` of the un-split height, the `⌈h/t⌉`-pass height and the `⌊h/t⌋`-pass
height.  The source sets `height_per_pass_floor = float('inf')` when the
floor is `0` [Adaptive:155]; `inf` loses every comparison it appears in,
so that case reduces to comparing the original against the ceil
candidate, which is how the `else` branch below renders it. -/
def adaptivePlan (h t : ℚ) : PassPlan :=
  if t < h then
    let pc : ℤ := ⌈h / t⌉
    let pf : ℤ := ⌊h / t⌋
    let hppC : ℚ := h / (pc : ℚ)
    if 0 < pf then
      let hppF : ℚ := h / (pf : ℚ)
      let dC := |hppC - t|
      let dF := |hppF - t|
      let dO := |h - t|
      if dO ≤ dC ∧ dO ≤ dF then ⟨1, h, 1⟩
      else if dC < dF then ⟨pc, hppC, 1 / (pc : ℚ)⟩
      else ⟨pf, hppF, 1 / (pf : ℚ)⟩
    else
      let dC := |hppC - t|
      let dO := |h - t|
      if dO ≤ dC then ⟨1, h, 1⟩
      else ⟨pc, hppC, 1 / (pc : ℚ)⟩
  else
    ⟨1, h, 1⟩

/-- Z height of pass `p` (0-based) in the fixed engine [Fixed:124]:
`pass_z = current_z + pass_num * height_per_pass`. -/
def fixedPassZ (z hpp : ℚ) (p : ℕ) : ℚ := z + (p : ℚ) * hpp

/-- Z height of pass `p` (0-based) in the adaptive engine
[Adaptive:206-211]: the unmodified `current_z` for a single pass, else
`(current_z - current_layer_height) + (pass_num + 1) * height_per_pass`. -/
def adaptivePassZ (z h hpp : ℚ) (n : ℤ) (p : ℕ) : ℚ :=
  if n = 1 then z else (z - h) + ((p : ℚ) + 1) * hpp

/-! ### Backward scan for the segment entry position -/

/-- Test of one line in the backward scan [Fixed:114-118] [Adaptive:196-200]:
`"G1" in line and "X" in line and "Y" in line`, then both coordinate
captures must succeed; otherwise the scan continues. -/
def checkGLine (l : GLine) : Option (ℚ × ℚ) :=
  if l.hasG1 && l.hasX && l.hasY then
    match l.xCapture, l.yCapture with
    | some x, some y => some (x, y)
    | _, _ => none
  else none

/-- Descending index scan: examine `j, j-1, ...` while the index stays
strictly above `bound`, returning the first hit.  Index `0` is never
examined (Python's `range(start, stop, -1)` with `stop = max(0, ...)`
stops before reaching `stop`). -/
def scanBack (lines : List GLine) (bound : ℕ) : ℕ → Option (ℚ × ℚ)
  | 0 => none
  | j+1 =>
    if bound < j+1 then
      match checkGLine (lines.getD (j+1) defaultGLine) with
      | some p => some p
      | none => scanBack lines bound j
    else none

/-- The `start_pos` search [Fixed:111-119] [Adaptive:192-201] for a
segment whose first line sits at index `s`:
`for j in range(i - len(block) - 1, max(0, i - len(block) - 10), -1)`
with `i - len(block) = s`, i.e. indices `s-1` down to `max(0, s-10) + 1`. -/
def findStartPos (lines : List GLine) (s : ℕ) : Option (ℚ × ℚ) :=
  scanBack lines (s - 10) (s - 1)

/-! ### Block collection -/

/-- Fixed-engine block boundary test on the *next* line [Fixed:101]:
`";TYPE:" in l or "M" in l and not "M73" in l`
(`and` binds tighter than `or`). -/
def boundaryF (l : GLine) : Bool := l.hasTypeTag || (l.hasM && !l.hasM73)

/-- Adaptive-engine block boundary test on the *next* line [Adaptive:137]:
`";TYPE:" in l or "; FEATURE:" in l and not ("Overhang" in l or "Outer" in l)
or l.startswith(";Z") or l.startswith("M991")` (the source repeats the
`";Z"` test three times). -/
def boundaryA (l : GLine) : Bool :=
  l.hasTypeTag || (l.hasFeatureTag && !(l.hasOverhang || l.hasOuter)) ||
    l.startsSemiZ || l.startsM991

/-- The inner collection loop [Fixed:99-106] [Adaptive:135-144], which is
textually identical in both engines up to the boundary test: starting from
the wall-start line `cur` (the current line is always appended before the
loop decides), append the boundary line as the block's last element and
stop, or keep absorbing; a block reaching end-of-file simply ends.
Returns the block and the number of *extra* lines consumed beyond `cur`,
so the caller resumes at `i + 1 + extra`. -/
def collectBlock (boundary : GLine → Bool) : GLine → List GLine → List GLine × ℕ
  | cur, [] => ([cur], 0)
  | cur, next :: rest =>
    if boundary next then ([cur], 0)
    else
      let r := collectBlock boundary next rest
      (cur :: r.1, r.2 + 1)

/-- The layer-change look-ahead [Adaptive:100-113]:
`for j in range(i + 1, min(i + 5, len(lines)))`, i.e. the 4 lines after
the marker; the first line whose height tag parses updates the tracked
layer height (the source's `!=` test only gates logging), otherwise the
height is left unchanged. -/
def lookaheadHeight (lines : List GLine) (i : ℕ) (h : ℚ) : ℚ :=
  match ((lines.drop (i+1)).take 4).findSome? GLine.heightLookahead with
  | some v => v
  | none => h

/-! ### Synthesised lines -/

/-- Left-pad a digit string with zeros to width `k`. -/
def padZeros (k : ℕ) (s : String) : String :=
  if s.length < k then String.mk (List.replicate (k - s.length) '0') ++ s else s

/-- Python's `f"{q:.kf}"`: round half to even at the k-th decimal, print in
fixed-point.  (For a negative value rounding to zero Python prints
`-0.000…` where this prints `0.000…`; no value in this development hits
that case.) -/
def fmtK (k : ℕ) (q : ℚ) : String :=
  let m := roundHalfEven (q * (10 : ℚ) ^ k)
  (if m < 0 then "-" else "") ++
    toString (m.natAbs / 10 ^ k) ++ "." ++ padZeros k (toString (m.natAbs % 10 ^ k))

/-- The travel move emitted before passes after the first [Fixed:128]
[Adaptive:217]: `f"G1 X{x:.3f} Y{y:.3f} F9000 ; Travel back to start\n"`.
The fields record what the engines' tests yield on that text: a `G1` line
with X and Y coordinates (re-parsing the 3-decimal spelling), no Z, no E,
no markers. -/
def mkTravelLine (x y : ℚ) : GLine :=
  { raw := "G1 X" ++ fmtK 3 x ++ " Y" ++ fmtK 3 y ++ " F9000 ; Travel back to start\n",
    hasG1 := true, hasX := true, hasY := true,
    xCapture := some (round3 x), yCapture := some (round3 y),
    travelTag := true }

/-- The Z move opening each pass [Fixed:131] [Adaptive:220]:
`f"G1 Z{z:.3f} ; Pass {p+1} of {n}\n"`.  The text starts with `"G1 Z"`,
both engines' Z regexes capture the 3-decimal spelling, and it carries no
X/Y/E and no markers.  `g1zLiteral` stays `none`: the `:.3f` spelling
(leading zero, exactly three decimals) can never equal the
stripped-`str(current_z)` text from which the [Adaptive:230] pattern is
built, so that guard can never match this line. -/
def mkPassZLine (z : ℚ) (p : ℕ) (n : ℤ) : GLine :=
  { raw := "G1 Z" ++ fmtK 3 z ++ " ; Pass " ++ toString (p+1) ++ " of " ++ toString n ++ "\n",
    startsWithG1Z := true, hasG1 := true,
    zCaptureFixed := some (round3 z), zMatchAdaptive := some (round3 z),
    passTag := some (p+1, n) }

/-- Fixed-engine rewrite of an extrusion line [Fixed:136-141]:
`re.sub(r'E[-\d.]+', f'E{e * mult:.5f}', line)`.  Only the E digits
change; the raw text is kept since the replaced digits alter no textual
test modelled here (in particular no header declaration). -/
def scaleELineF (mult e : ℚ) (bl : GLine) : GLine :=
  { bl with eCapture := some (scaledE e mult) }

/-- Adaptive-engine rewrite of an extrusion line [Adaptive:225-237]: the E
substitution as in the fixed engine, then the guard against a line that
re-asserts the entry Z [Adaptive:230-233]: when the line carries the
current Z as a literal and the formatted-to-5-decimals texts of
`current_z` and `pass_z` differ, every Z literal is replaced by
`f"Z{pass_z:.3f}"`, which the Z regexes re-parse as `round3 passZ`. -/
def scaleELineA (mult z passZ e : ℚ) (bl : GLine) : GLine :=
  let l1 : GLine := { bl with eCapture := some (scaledE e mult) }
  if bl.g1zLiteral = some z ∧ round5 z ≠ round5 passZ then
    { l1 with zCaptureFixed := l1.zCaptureFixed.map fun _ => round3 passZ,
              zMatchAdaptive := l1.zMatchAdaptive.map fun _ => round3 passZ,
              g1zLiteral := some (round3 passZ) }
  else l1

/-! ### Pass emission -/

/-- The travel move preceding every pass but the first, when a start
position was found [Fixed:127-128] [Adaptive:216-217]. -/
def travelOf (sp : Option (ℚ × ℚ)) (p : ℕ) : List GLine :=
  match sp with
  | some xy => if 0 < p then [mkTravelLine xy.1 xy.2] else []
  | none => []

/-- Fixed-engine body of one pass over the block [Fixed:134-143]: a `G1`
line containing `E` whose capture succeeds is emitted rescaled; one whose
capture fails is dropped (the source's `if e_match:` has no else); every
other line is copied unchanged. -/
def passBodyF (mult : ℚ) (blk : List GLine) : List GLine :=
  blk.flatMap fun bl =>
    if bl.hasG1 && bl.hasE then
      match bl.eCapture with
      | some e => [scaleELineF mult e bl]
      | none => []
    else [bl]

/-- Adaptive-engine body of one pass [Adaptive:223-239]; as the fixed one
but `G2`/`G3` also count as motion and the Z-guard applies. -/
def passBodyA (mult z passZ : ℚ) (blk : List GLine) : List GLine :=
  blk.flatMap fun bl =>
    if (bl.hasG1 || bl.hasG2 || bl.hasG3) && bl.hasE then
      match bl.eCapture with
      | some e => [scaleELineA mult z passZ e bl]
      | none => []
    else [bl]

/-- Fixed-engine pass generation [Fixed:121-143]. -/
def emitPassesF (blk : List GLine) (sp : Option (ℚ × ℚ)) (z : ℚ) (n : ℤ)
    (hpp mult : ℚ) : List GLine :=
  (List.range n.toNat).flatMap fun p =>
    travelOf sp p ++ (mkPassZLine (fixedPassZ z hpp p) p n :: passBodyF mult blk)

/-- Adaptive-engine pass generation [Adaptive:203-239]. -/
def emitPassesA (blk : List GLine) (sp : Option (ℚ × ℚ)) (z h : ℚ) (n : ℤ)
    (hpp mult : ℚ) : List GLine :=
  (List.range n.toNat).flatMap fun p =>
    travelOf sp p ++
      (mkPassZLine (adaptivePassZ z h hpp n p) p n ::
        passBodyA mult z (adaptivePassZ z h hpp n p) blk)

/-! ### The two scan loops

Both `while i < len(lines)` loops advance `i` by at least one per
iteration, so `lines.length` iterations always reach `i ≥ lines.length`;
the explicit fuel argument (always instantiated with `lines.length`) is
only a structural-recursion device and is never exhausted. -/

/-- Fixed-engine wall-start test [Fixed:96]. -/
def wallStartF (l : GLine) : Bool := l.hasTypeExternalPerimeter || l.hasTypeOuterWall

/-- Adaptive-engine wall-start test [Adaptive:131]. -/
def wallStartA (l : GLine) : Bool :=
  l.hasTypeExternalPerimeter || l.hasTypeOuterWall || l.hasFeatureOuterWall

/-- Main loop of the fixed engine [Fixed:79-146].  State: current index
`i`, `current_z` `z`; the pass count, height per pass and multiplier are
fixed before the loop. -/
def fixedLoop : ℕ → List GLine → ℤ → ℚ → ℚ → ℕ → ℚ → List GLine → List GLine
  | 0, _, _, _, _, _, _, out => out
  | fuel+1, lines, n, hpp, mult, i, z, out =>
    if hi : i < lines.length then
      let line := lines[i]
      if line.startsWithG1Z then
        let z' := match line.zCaptureFixed with | some v => v | none => z
        fixedLoop fuel lines n hpp mult (i+1) z' (out ++ [line])
      else if wallStartF line then
        let r := collectBlock boundaryF line (lines.drop (i+1))
        fixedLoop fuel lines n hpp mult (i + 1 + r.2) z
          (out ++ emitPassesF r.1 (findStartPos lines i) z n hpp mult)
      else
        fixedLoop fuel lines n hpp mult (i+1) z (out ++ [line])
    else out

/-- Main loop of the adaptive engine [Adaptive:93-242].  State: current
index `i`, `current_z` `z`, `current_layer_height` `h` (initially both
`0.0` [Adaptive:60-62]); the plan is recomputed per segment. -/
def adaptiveLoop : ℕ → List GLine → ℚ → ℕ → ℚ → ℚ → List GLine → List GLine
  | 0, _, _, _, _, _, out => out
  | fuel+1, lines, t, i, z, h, out =>
    if hi : i < lines.length then
      let line := lines[i]
      if line.isLayerChangeMarker then
        adaptiveLoop fuel lines t (i+1) z (lookaheadHeight lines i h) (out ++ [line])
      else
        match line.zMatchAdaptive with
        | some zv => adaptiveLoop fuel lines t (i+1) zv h (out ++ [line])
        | none =>
          if wallStartA line then
            let r := collectBlock boundaryA line (lines.drop (i+1))
            let P := adaptivePlan h t
            adaptiveLoop fuel lines t (i + 1 + r.2) z h
              (out ++ emitPassesA r.1 (findStartPos lines i) z h
                P.passes P.heightPerPass P.extrusionMult)
          else adaptiveLoop fuel lines t (i+1) z h (out ++ [line])
    else out

/-- How a run can die: `sys.exit(1)` [Fixed:60,67] [Adaptive:79,86], or the
uncaught `ZeroDivisionError` from `base / passes_needed` when the rounded
pass count is zero [Fixed:71]. -/
inductive ProcErr where
  | exitOne
  | zeroDivision
  deriving DecidableEq, Repr

instance {e a : Type} [DecidableEq e] [DecidableEq a] : DecidableEq (Except e a) := fun x y =>
  match x, y with
  | .ok v, .ok w => if h : v = w then isTrue (by rw [h]) else isFalse (by simp [h])
  | .error v, .error w => if h : v = w then isTrue (by rw [h]) else isFalse (by simp [h])
  | .ok _, .error _ => isFalse (by simp)
  | .error _, .ok _ => isFalse (by simp)

/-- `process_gcode` of `Smoothificator.py` [Fixed:42-153] up to the final
write: read lines, extract the base layer height (`if not
base_layer_height` also fires on the falsy value `0.0` [Fixed:58]),
validate the target [Fixed:65-67], derive the plan [Fixed:70-72] (dying
with `ZeroDivisionError` when `round(base/target) = 0`), then scan.  The
file write [Fixed:149-150] happens only after all of this, hence only on
the `.ok` branch. -/
def processGcodeFixed (lines : List GLine) (outerLayerHeight : ℚ) :
    Except ProcErr (List GLine) :=
  match getLayerHeight (lines.map GLine.raw) with
  | none => .error .exitOne
  | some b =>
    if b = 0 then .error .exitOne
    else if outerLayerHeight ≤ 0 then .error .exitOne
    else
      let n := fixedPassCount b outerLayerHeight
      if n = 0 then .error .zeroDivision
      else .ok (fixedLoop lines.length lines n (fixedHeightPerPass b outerLayerHeight)
        (fixedMultiplier b outerLayerHeight) 0 0 [])

/-- `process_gcode` of `Smoothificator_Adaptive.py` [Adaptive:58-250] up to
the final write: a missing explicit target falls back to the
`min_layer_height` header [Adaptive:75-79], the target is validated
[Adaptive:84-86], then the scan runs with `current_z = current_layer_height
= 0.0`.  The file write [Adaptive:245-246] happens only on `.ok`. -/
def processGcodeAdaptive (lines : List GLine) (outerLayerHeight : Option ℚ) :
    Except ProcErr (List GLine) :=
  let t? := match outerLayerHeight with
            | some t => some t
            | none => getMinLayerHeight (lines.map GLine.raw)
  match t? with
  | none => .error .exitOne
  | some t =>
    if t ≤ 0 then .error .exitOne
    else .ok (adaptiveLoop lines.length lines t 0 0 0 [])

/-- The file life-cycle of a fixed-engine run: the target file holds the
rewritten stream after a successful run and its original contents after a
fatal one (the overwrite [Fixed:149-150] is only reached on success). -/
def runFixed (lines : List GLine) (outer : ℚ) : List GLine :=
  match processGcodeFixed lines outer with
  | .ok out => out
  | .error _ => lines

/-- The file life-cycle of an adaptive-engine run [Adaptive:245-246]. -/
def runAdaptive (lines : List GLine) (outer : Option ℚ) : List GLine :=
  match processGcodeAdaptive lines outer with
  | .ok out => out
  | .error _ => lines

/-- Number of lines carrying a successfully captured extrusion value. -/
def countE (lines : List GLine) : ℕ := lines.countP fun l => l.eCapture.isSome

/-! ### Concrete instruction lines

Each definition lists the raw text and the outcome of every source test on
it; note that Python's `"E" in line` is a bare character test, so comment
markers like `";TYPE:"` or `";LAYER_CHANGE"` count as containing `E` (and
`";LAYER_CHANGE"` as containing `Y`) even though the `E(...)`/`Y(...)`
capture regexes then fail on them. -/

/-- `";LAYER_CHANGE\n"`: layer-change marker; contains the characters `Y`
and `E` but neither capture succeeds (`Y`/`E` are followed by letters). -/
def lineLC : GLine :=
  { raw := ";LAYER_CHANGE\n", isLayerChangeMarker := true, hasY := true, hasE := true }

/-- `";HEIGHT:0.3\n"`: height annotation 0.3; contains `E` (in `HEIGHT`)
with no capture. -/
def lineH03 : GLine :=
  { raw := ";HEIGHT:0.3\n", heightLookahead := some (3/10), hasE := true }

/-- `";HEIGHT:0.08\n"`: height annotation 0.08. -/
def lineH008 : GLine :=
  { raw := ";HEIGHT:0.08\n", heightLookahead := some (2/25), hasE := true }

/-- `"G1 Z0.3 F3000\n"`: absolute Z move; starts with `"G1 Z"`, both Z
regexes capture 0.3.  `g1zLiteral` is `none`: the stripped
`str(current_z)` text never keeps a leading zero, so no pattern built from
it can match the spelling `Z0.3`. -/
def lineZ03 : GLine :=
  { raw := "G1 Z0.3 F3000\n", startsWithG1Z := true, hasG1 := true,
    zCaptureFixed := some (3/10), zMatchAdaptive := some (3/10) }

/-- `"G1 Z0.08 F3000\n"`: absolute Z move to 0.08. -/
def lineZ008 : GLine :=
  { raw := "G1 Z0.08 F3000\n", startsWithG1Z := true, hasG1 := true,
    zCaptureFixed := some (2/25), zMatchAdaptive := some (2/25) }

/-- `"G1 X0 Y0 F9000\n"`: travel move to the origin, no Z, no E. -/
def lineXY00 : GLine :=
  { raw := "G1 X0 Y0 F9000\n", hasG1 := true, hasX := true, hasY := true,
    xCapture := some 0, yCapture := some 0 }

/-- `"G1 X5 Y7 F9000\n"`: travel move to (5, 7). -/
def lineXY57 : GLine :=
  { raw := "G1 X5 Y7 F9000\n", hasG1 := true, hasX := true, hasY := true,
    xCapture := some 5, yCapture := some 7 }

/-- `";TYPE:External perimeter\n"`: wall-start marker (PrusaSlicer
dialect); contains `E` with no capture, and `";TYPE:"` makes it a block
boundary when seen as a next line. -/
def lineTypeExt : GLine :=
  { raw := ";TYPE:External perimeter\n", hasTypeExternalPerimeter := true,
    hasTypeTag := true, hasE := true }

/-- `";TYPE:Outer wall\n"`: wall-start marker (OrcaSlicer dialect);
contains `"Outer"` and `E` (in `TYPE`). -/
def lineTypeOW : GLine :=
  { raw := ";TYPE:Outer wall\n", hasTypeOuterWall := true, hasTypeTag := true,
    hasOuter := true, hasE := true }

/-- `";TYPE:Internal\n"`: a different feature marker: boundary, not a wall
start. -/
def lineTypeInt : GLine :=
  { raw := ";TYPE:Internal\n", hasTypeTag := true, hasE := true }

/-- `"G1 X1 Y1 E1.0\n"`: extrusion move with delta 1.0. -/
def lineMoveE : GLine :=
  { raw := "G1 X1 Y1 E1.0\n", hasG1 := true, hasX := true, hasY := true,
    hasE := true, xCapture := some 1, yCapture := some 1, eCapture := some 1 }

/-- `"; layer_height = 1\n"`: slicer header declaring the base layer
height 1; no scanner test matches it. -/
def lineHeaderLH1 : GLine := { raw := "; layer_height = 1\n" }

/-- `";\n"`: an empty comment; nothing matches. -/
def lineFiller : GLine := { raw := ";\n" }

/-- A single-layer file with one outer-wall segment: layer change with
height 0.3, Z move to 0.3, a travel move, the wall marker, one extrusion
line, then another feature block. -/
def fileWall03 : List GLine :=
  [lineLC, lineH03, lineZ03, lineXY00, lineTypeExt, lineMoveE, lineTypeInt]

/-- As `fileWall03` but a thin layer of height 0.08. -/
def fileThin008 : List GLine :=
  [lineLC, lineH008, lineZ008, lineXY00, lineTypeExt, lineMoveE, lineTypeInt]

/-- A wall segment appearing before any layer-change marker. -/
def fileNoLayer : List GLine := [lineXY00, lineTypeOW, lineMoveE]

/-- Twelve lines whose only X/Y-carrying move sits at index 1, exactly 10
lines before the wall marker at index 11. -/
def fileFarXY : List GLine :=
  [lineFiller, lineXY57, lineFiller, lineFiller, lineFiller, lineFiller,
   lineFiller, lineFiller, lineFiller, lineFiller, lineFiller, lineTypeExt]

/-! ### Helper lemmas -/

theorem roundHalfEven_sub_abs_le (q : ℚ) : |(roundHalfEven q : ℚ) - q| ≤ 1/2 := by
  have h0 : (⌊q⌋ : ℚ) ≤ q := Int.floor_le q
  have h1 : q < (⌊q⌋ : ℚ) + 1 := Int.lt_floor_add_one q
  unfold roundHalfEven
  split_ifs with hf1 hf2 hev
  · rw [abs_sub_comm, abs_of_nonneg (by linarith)]
    linarith
  · push_cast
    rw [abs_of_nonneg (by linarith)]
    linarith
  · rw [abs_sub_comm, abs_of_nonneg (by linarith)]
    linarith
  · push_cast
    rw [abs_of_nonneg (by linarith)]
    linarith

theorem round5_sub_abs_le (q : ℚ) : |round5 q - q| ≤ 1/200000 := by
  have h := roundHalfEven_sub_abs_le (q * 100000)
  unfold round5
  rw [show (roundHalfEven (q * 100000) : ℚ) / 100000 - q =
        ((roundHalfEven (q * 100000) : ℚ) - q * 100000) / 100000 by ring,
      abs_div, abs_of_pos (by norm_num : (0:ℚ) < 100000)]
  linarith

theorem roundHalfEven_pos (q : ℚ) (hq : 1/2 < q) : 0 < roundHalfEven q := by
  have h0 : (⌊q⌋ : ℚ) ≤ q := Int.floor_le q
  have h1 : q < (⌊q⌋ : ℚ) + 1 := Int.lt_floor_add_one q
  unfold roundHalfEven
  split_ifs with hf1 hf2 hev
  · exact_mod_cast (by linarith : (0:ℚ) < (⌊q⌋ : ℚ))
  · have : (-1:ℚ) < (⌊q⌋ : ℚ) := by linarith
    have : (-1:ℤ) < ⌊q⌋ := by exact_mod_cast this
    omega
  · exact_mod_cast (by linarith : (0:ℚ) < (⌊q⌋ : ℚ))
  · have : (-1:ℚ) < (⌊q⌋ : ℚ) := by linarith
    have : (-1:ℤ) < ⌊q⌋ := by exact_mod_cast this
    omega

/-- The last pass of a plan with `n` passes whose heights sum back to `h`
finishes at the entry Z. -/
theorem adaptivePassZ_last (z h hpp : ℚ) (n : ℤ) (h1 : 1 ≤ n)
    (hmul : (n : ℚ) * hpp = h) :
    adaptivePassZ z h hpp n (n.toNat - 1) = z := by
  unfold adaptivePassZ
  by_cases hn1 : n = 1
  · rw [if_pos hn1]
  · rw [if_neg hn1]
    have hcast : ((n.toNat - 1 : ℕ) : ℚ) + 1 = (n : ℚ) := by
      have h2 : n.toNat - 1 + 1 = n.toNat := by omega
      calc ((n.toNat - 1 : ℕ) : ℚ) + 1 = ((n.toNat - 1 + 1 : ℕ) : ℚ) := by push_cast; ring
        _ = (n.toNat : ℚ) := by rw [h2]
        _ = (n : ℚ) := by exact_mod_cast Int.toNat_of_nonneg (by omega)
    rw [hcast, hmul]
    ring

/-- Every adaptive plan for a positive target has at least one pass, its
pass heights sum back to the current layer height, and its multiplier is
the reciprocal of the pass count. -/
theorem adaptivePlan_spec (h t : ℚ) (ht : 0 < t) :
    1 ≤ (adaptivePlan h t).passes ∧
    ((adaptivePlan h t).passes : ℚ) * (adaptivePlan h t).heightPerPass = h ∧
    (adaptivePlan h t).extrusionMult = 1 / ((adaptivePlan h t).passes : ℚ) := by
  unfold adaptivePlan
  by_cases hlt : t < h
  · have hx1 : (1:ℚ) < h / t := (one_lt_div ht).mpr hlt
    have hpf1 : (1:ℤ) ≤ ⌊h/t⌋ := Int.le_floor.mpr (by exact_mod_cast hx1.le)
    have hpc1 : (1:ℤ) ≤ ⌈h/t⌉ := le_trans hpf1 (Int.floor_le_ceil _)
    rw [if_pos hlt, if_pos (by omega : (0:ℤ) < ⌊h/t⌋)]
    dsimp only
    split_ifs with hcase1 hcase2
    · exact ⟨le_refl 1, by norm_num, by norm_num⟩
    · refine ⟨hpc1, ?_, rfl⟩
      have hne : ((⌈h/t⌉ : ℤ) : ℚ) ≠ 0 := by
        exact_mod_cast (by omega : (⌈h/t⌉ : ℤ) ≠ 0)
      field_simp
    · refine ⟨hpf1, ?_, rfl⟩
      have hne : ((⌊h/t⌋ : ℤ) : ℚ) ≠ 0 := by
        exact_mod_cast (by omega : (⌊h/t⌋ : ℤ) ≠ 0)
      field_simp
  · rw [if_neg hlt]
    exact ⟨le_refl 1, by norm_num, by norm_num⟩

/-! ### Claim C1 -/

/-- C1 counterexample: the claim bounds the reconstruction error of every
split by `1e-4`, but with 21 passes (reachable: a 2.1 mm layer at target
0.1 mm gives 21 passes under either policy) an extrusion delta of
0.0001029 is scaled to 0.0000049 per pass, which prints as `E0.00000`, so
the 21 emitted deltas sum to 0 and the error is 1.029e-4 > 1e-4. -/
theorem c1_counterexample :
    (adaptivePlan (21/10) (1/10)).passes = 21 ∧
    fixedPassCount (21/10) (1/10) = 21 ∧
    1/10000 < |(21 : ℚ) * scaledE (1029/10000000) (1/21) - 1029/10000000| := by
  with_unfolding_all decide

/-- C1 (amended): for a segment split into `n ≥ 1` passes, each original
extrusion delta `e` is emitted `n` times as `round5 (e * (1/n))`, and the
sum of the emitted deltas differs from `e` by at most `n / 200000` — half
an output ulp per pass — which is within the claimed `1e-4` exactly when
`n ≤ 20`. -/
theorem c1_scaled_extrusion_sum (n : ℕ) (e : ℚ) (hn : 1 ≤ n) :
    |(n : ℚ) * scaledE e (1 / (n : ℚ)) - e| ≤ (n : ℚ) / 200000 ∧
    (n ≤ 20 → |(n : ℚ) * scaledE e (1 / (n : ℚ)) - e| ≤ 1/10000) := by
  have hn0 : (0:ℚ) < (n:ℚ) := by exact_mod_cast hn
  have hne : (n:ℚ) ≠ 0 := ne_of_gt hn0
  have hsplit : (n:ℚ) * scaledE e (1 / (n:ℚ)) - e =
      (n:ℚ) * (round5 (e * (1/(n:ℚ))) - e * (1/(n:ℚ))) := by
    unfold scaledE
    field_simp
    ring
  have hmain : |(n : ℚ) * scaledE e (1 / (n : ℚ)) - e| ≤ (n : ℚ) / 200000 := by
    rw [hsplit, abs_mul, abs_of_pos hn0]
    calc (n:ℚ) * |round5 (e * (1/(n:ℚ))) - e * (1/(n:ℚ))|
        ≤ (n:ℚ) * (1/200000) :=
          mul_le_mul_of_nonneg_left (round5_sub_abs_le _) hn0.le
      _ = (n:ℚ) / 200000 := by ring
  refine ⟨hmain, fun h20 => ?_⟩
  have h20q : (n:ℚ) ≤ 20 := by exact_mod_cast h20
  calc |(n : ℚ) * scaledE e (1 / (n : ℚ)) - e| ≤ (n : ℚ) / 200000 := hmain
    _ ≤ 1/10000 := by linarith

/-- Witness for `c1_scaled_extrusion_sum` at the spec's own fixed-height
exact. -/
theorem c1_scaled_extrusion_sum_witness :
    1 ≤ 4 ∧ |(4 : ℚ) * scaledE (12/10) (1 / (4 : ℚ)) - 12/10| ≤ (4 : ℚ) / 200000 :=
  ⟨by norm_num, (c1_scaled_extrusion_sum 4 (12/10) (by norm_num)).1⟩

/-! ### Claim C2 -/

/-- C2 counterexample: in the fixed engine a 0.2 mm layer at target
0.05 mm is rewritten as 4 passes at `entry + p·0.05` [Fixed:124], so the
last pass sits at `entry + 0.15`, not at the entry Z: with entry Z 0.2 the
last emitted pass Z is 0.35 ≠ 0.2, and the rewrite raises the apparent
top-of-layer height. -/
theorem c2_counterexample :
    fixedPassCount (2/10) (5/100) = 4 ∧
    fixedHeightPerPass (2/10) (5/100) = 5/100 ∧
    fixedPassZ (2/10) (5/100) 3 = 35/100 ∧ (35/100 : ℚ) ≠ 2/10 := by
  with_unfolding_all decide

/-- C2 (amended): height conservation holds in the adaptive engine — for
any positive target, the last pass of the plan finishes exactly at the
segment's entry Z [Adaptive:206-211] — while the fixed engine instead
*starts* at the entry Z (its first pass Z equals the entry Z) and stacks
the remaining passes above it [Fixed:124]. -/
theorem c2_last_pass_z (z hpp h t : ℚ) (ht : 0 < t) :
    adaptivePassZ z h (adaptivePlan h t).heightPerPass (adaptivePlan h t).passes
      ((adaptivePlan h t).passes.toNat - 1) = z ∧
    fixedPassZ z hpp 0 = z := by
  constructor
  · obtain ⟨hp1, hp2, _⟩ := adaptivePlan_spec h t ht
    exact adaptivePassZ_last z h _ _ hp1 hp2
  · simp [fixedPassZ]

/-- Witness for `c2_last_pass_z`: a 0.3 mm layer at target 0.1 mm splits
into 3 passes and the third finishes at the entry Z 0.5. -/
theorem c2_last_pass_z_witness :
    (0:ℚ) < 1/10 ∧
    (adaptivePassZ (1/2) (3/10) (adaptivePlan (3/10) (1/10)).heightPerPass
        (adaptivePlan (3/10) (1/10)).passes
        ((adaptivePlan (3/10) (1/10)).passes.toNat - 1) = 1/2 ∧
      fixedPassZ (1/2) (1/20) 0 = 1/2) :=
  ⟨by norm_num, c2_last_pass_z (1/2) (1/20) (3/10) (1/10) (by norm_num)⟩

/-! ### Claim C3 -/

/-- C3 counterexample: the fixed planner has no minimum clamp — for base
height 1 and target 3 (both positive) `round(1/3)` is 0, the claimed
"minimum of 1" does not hold, and the program dies in the subsequent
division `height_per_pass = base / passes_needed` [Fixed:71]: on a file
declaring `layer_height = 1` with target 3 the run aborts with
`ZeroDivisionError` instead of producing output. -/
theorem c3_counterexample :
    (0:ℚ) < 1 ∧ (0:ℚ) < 3 ∧ fixedPassCount 1 3 = 0 ∧
    processGcodeFixed [lineHeaderLH1] 3 = .error .zeroDivision := by
  with_unfolding_all decide

/-- C3 (amended): the fixed planner computes
`pass count = round-half-even(base/target)` with no minimum; whenever
`base/target > 1/2` the count is a positive integer, the subdivision is
exact (`count × height_per_pass = base`), and the multiplier is
`1/count`; for `base/target ≤ 1/2` the count is 0 and the run dies with a
division error. -/
theorem c3_fixed_plan (b t : ℚ) (_hb : 0 < b) (_ht : 0 < t) (hhalf : 1/2 < b / t) :
    0 < fixedPassCount b t ∧
    (fixedPassCount b t : ℚ) * fixedHeightPerPass b t = b ∧
    fixedMultiplier b t = 1 / (fixedPassCount b t : ℚ) := by
  have hpos : 0 < fixedPassCount b t := roundHalfEven_pos (b/t) hhalf
  refine ⟨hpos, ?_, rfl⟩
  unfold fixedHeightPerPass
  have hne : ((fixedPassCount b t : ℤ) : ℚ) ≠ 0 := by
    exact_mod_cast (ne_of_gt hpos)
  field_simp

/-- Witness for `c3_fixed_plan` at the spec's example: base 0.2 mm, target
0.05 mm, 4 passes of 0.05 mm, multiplier 1/4. -/
theorem c3_fixed_plan_witness :
    ((0:ℚ) < 2/10 ∧ (0:ℚ) < 5/100 ∧ (1:ℚ)/2 < (2/10) / (5/100)) ∧
    (0 < fixedPassCount (2/10) (5/100) ∧
      (fixedPassCount (2/10) (5/100) : ℚ) * fixedHeightPerPass (2/10) (5/100) = 2/10 ∧
      fixedMultiplier (2/10) (5/100) = 1 / (fixedPassCount (2/10) (5/100) : ℚ)) :=
  ⟨⟨by norm_num, by norm_num, by norm_num⟩,
    c3_fixed_plan (2/10) (5/100) (by norm_num) (by norm_num) (by norm_num)⟩

/-! ### Claim C4 -/

/-- C4 (confirmed): when the current layer height is at most the target,
the adaptive planner returns a single pass at the unmodified height with
multiplier 1 [Adaptive:182-186], the emitted pass Z is the unmodified
entry Z [Adaptive:206-208], and single-pass emission repeats the block
exactly once with no travel move [Adaptive:204-239]. -/
theorem c4_thin_layer (h t z : ℚ) (hle : h ≤ t) :
    adaptivePlan h t = ⟨1, h, 1⟩ ∧
    adaptivePassZ z h (adaptivePlan h t).heightPerPass (adaptivePlan h t).passes 0 = z ∧
    (∀ (blk : List GLine) (sp : Option (ℚ × ℚ)) (hpp mult : ℚ),
      emitPassesA blk sp z h 1 hpp mult = mkPassZLine z 0 1 :: passBodyA mult z z blk) := by
  have hplan : adaptivePlan h t = ⟨1, h, 1⟩ := by
    unfold adaptivePlan
    rw [if_neg (not_lt.mpr hle)]
  refine ⟨hplan, ?_, ?_⟩
  · rw [hplan]
    simp [adaptivePassZ]
  · intro blk sp hpp mult
    have hz : adaptivePassZ z h hpp 1 0 = z := by simp [adaptivePassZ]
    unfold emitPassesA
    rw [show List.range (1:ℤ).toNat = [0] from rfl, List.flatMap_cons, List.flatMap_nil,
      List.append_nil, hz]
    cases sp with
    | none => rfl
    | some xy => simp [travelOf]

/-- Witness for `c4_thin_layer` at the spec's thin-layer example: current
height 0.08, target 0.12. -/
theorem c4_thin_layer_witness :
    (2:ℚ)/25 ≤ 3/25 ∧
    (adaptivePlan (2/25) (3/25) = ⟨1, 2/25, 1⟩ ∧
      adaptivePassZ (2/5) (2/25) (adaptivePlan (2/25) (3/25)).heightPerPass
        (adaptivePlan (2/25) (3/25)).passes 0 = 2/5 ∧
      emitPassesA [lineMoveE] none (2/5) (2/25) 1 (2/25) 1 =
        mkPassZLine (2/5) 0 1 :: passBodyA 1 (2/5) (2/5) [lineMoveE]) := by
  have h := c4_thin_layer (2/25) (3/25) (2/5) (by norm_num)
  exact ⟨by norm_num, h.1, h.2.1, h.2.2 [lineMoveE] none (2/25) 1⟩

/-! ### Claim C5 -/

/-- C5 (confirmed): for a layer thicker than the target the adaptive
planner picks the candidate (un-split, ceil passes, floor passes) whose
height-per-pass deviates least from the target [Adaptive:148-172]; a tie
involving the un-split deviation keeps the un-split layer (the `<=`
comparisons), and a ceil/floor tie falls to the `else` branch, i.e. to the
floor (fewer-passes) candidate. -/
theorem c5_adaptive_selection (h t : ℚ) (ht : 0 < t) (hlt : t < h) :
    (|(adaptivePlan h t).heightPerPass - t| =
      min (|h - t|) (min (|h / (⌈h / t⌉ : ℚ) - t|) (|h / (⌊h / t⌋ : ℚ) - t|))) ∧
    ((|h - t| ≤ |h / (⌈h / t⌉ : ℚ) - t| ∧ |h - t| ≤ |h / (⌊h / t⌋ : ℚ) - t|) →
      adaptivePlan h t = ⟨1, h, 1⟩) ∧
    (¬(|h - t| ≤ |h / (⌈h / t⌉ : ℚ) - t| ∧ |h - t| ≤ |h / (⌊h / t⌋ : ℚ) - t|) →
      |h / (⌈h / t⌉ : ℚ) - t| = |h / (⌊h / t⌋ : ℚ) - t| →
      (adaptivePlan h t).passes = ⌊h / t⌋) := by
  have hx1 : (1:ℚ) < h / t := (one_lt_div ht).mpr hlt
  have hpf1 : (1:ℤ) ≤ ⌊h/t⌋ := Int.le_floor.mpr (by exact_mod_cast hx1.le)
  have hplan : adaptivePlan h t =
      (if |h - t| ≤ |h / (⌈h / t⌉ : ℚ) - t| ∧ |h - t| ≤ |h / (⌊h / t⌋ : ℚ) - t| then
        (⟨1, h, 1⟩ : PassPlan)
      else if |h / (⌈h / t⌉ : ℚ) - t| < |h / (⌊h / t⌋ : ℚ) - t| then
        ⟨⌈h / t⌉, h / (⌈h / t⌉ : ℚ), 1 / (⌈h / t⌉ : ℚ)⟩
      else ⟨⌊h / t⌋, h / (⌊h / t⌋ : ℚ), 1 / (⌊h / t⌋ : ℚ)⟩) := by
    unfold adaptivePlan
    rw [if_pos hlt, if_pos (by omega : (0:ℤ) < ⌊h/t⌋)]
  rw [hplan]
  split_ifs with h1 h2
  · refine ⟨?_, fun _ => rfl, fun hc _ => absurd h1 hc⟩
    exact (min_eq_left (le_min h1.1 h1.2)).symm
  · have hCO : |h / (⌈h / t⌉ : ℚ) - t| < |h - t| := by
      rcases not_and_or.mp h1 with hA | hB
      · exact lt_of_not_le hA
      · exact lt_trans h2 (lt_of_not_le hB)
    refine ⟨?_, fun hc => absurd hc h1, fun _ heq => ?_⟩
    · show |h / (⌈h / t⌉ : ℚ) - t| = _
      rw [min_eq_left h2.le, min_eq_right hCO.le]
    · rw [heq] at h2
      exact absurd h2 (lt_irrefl _)
  · have hFC : |h / (⌊h / t⌋ : ℚ) - t| ≤ |h / (⌈h / t⌉ : ℚ) - t| := not_lt.mp h2
    have hFO : |h / (⌊h / t⌋ : ℚ) - t| < |h - t| := by
      rcases not_and_or.mp h1 with hA | hB
      · exact lt_of_le_of_lt hFC (lt_of_not_le hA)
      · exact lt_of_not_le hB
    refine ⟨?_, fun hc => absurd hc h1, fun _ _ => rfl⟩
    show |h / (⌊h / t⌋ : ℚ) - t| = _
    rw [min_eq_right hFC, min_eq_right hFO.le]

/-- Witness for `c5_adaptive_selection` at the spec's tie-break example:
height 0.24, target 0.10 — ceil (3 passes, 0.08/pass) and floor (2 passes,
0.12/pass) both deviate by 0.02, the un-split deviation is 0.14, and the
floor candidate is chosen. -/
theorem c5_adaptive_selection_witness :
    ((0:ℚ) < 1/10 ∧ (1:ℚ)/10 < 24/100) ∧
    (|(adaptivePlan (24/100) (1/10)).heightPerPass - 1/10| =
      min (|(24:ℚ)/100 - 1/10|)
        (min (|(24:ℚ)/100 / (⌈(24:ℚ)/100 / (1/10)⌉ : ℚ) - 1/10|)
          (|(24:ℚ)/100 / (⌊(24:ℚ)/100 / (1/10)⌋ : ℚ) - 1/10|))) ∧
    adaptivePlan (24/100) (1/10) = ⟨2, 12/100, 1/2⟩ :=
  ⟨⟨by norm_num, by norm_num⟩,
    (c5_adaptive_selection (24/100) (1/10) (by norm_num) (by norm_num)).1,
    by with_unfolding_all decide⟩

/-! ### Claim C6 -/

/-- C6 (confirmed): every fatal path — missing `layer_height` header in
the fixed engine (including the falsy value 0), missing `min_layer_height`
in the adaptive engine when no explicit target is given, or a
non-positive target in either — yields `sys.exit(1)` before the output
is assembled, and the modelled file life-cycle (`runFixed`/`runAdaptive`,
which overwrite only on success, as the source writes only after the scan
completes) leaves the file contents exactly as they were. -/
theorem c6_fatal_no_write :
    (∀ (lines : List GLine) (t : ℚ), getLayerHeight (lines.map GLine.raw) = none →
      processGcodeFixed lines t = .error .exitOne ∧ runFixed lines t = lines) ∧
    (∀ (lines : List GLine) (t : ℚ), t ≤ 0 →
      processGcodeFixed lines t = .error .exitOne ∧ runFixed lines t = lines) ∧
    (∀ (lines : List GLine), getMinLayerHeight (lines.map GLine.raw) = none →
      processGcodeAdaptive lines none = .error .exitOne ∧ runAdaptive lines none = lines) ∧
    (∀ (lines : List GLine) (t : ℚ), t ≤ 0 →
      processGcodeAdaptive lines (some t) = .error .exitOne ∧
        runAdaptive lines (some t) = lines) := by
  refine ⟨?_, ?_, ?_, ?_⟩
  · intro lines t hg
    have hp : processGcodeFixed lines t = .error .exitOne := by
      unfold processGcodeFixed
      rw [hg]
    exact ⟨hp, by unfold runFixed; rw [hp]⟩
  · intro lines t hle
    have hp : processGcodeFixed lines t = .error .exitOne := by
      unfold processGcodeFixed
      cases hgl : getLayerHeight (lines.map GLine.raw) with
      | none => rfl
      | some b =>
        dsimp only
        by_cases hb : b = 0
        · rw [if_pos hb]
        · rw [if_neg hb, if_pos hle]
    exact ⟨hp, by unfold runFixed; rw [hp]⟩
  · intro lines hg
    have hp : processGcodeAdaptive lines none = .error .exitOne := by
      unfold processGcodeAdaptive
      dsimp only
      rw [hg]
    exact ⟨hp, by unfold runAdaptive; rw [hp]⟩
  · intro lines t hle
    have hp : processGcodeAdaptive lines (some t) = .error .exitOne := by
      unfold processGcodeAdaptive
      dsimp only
      rw [if_pos hle]
    exact ⟨hp, by unfold runAdaptive; rw [hp]⟩

/-- Witness for `c6_fatal_no_write`: a file with no header and a file with
a header, run against valid and invalid targets. -/
theorem c6_fatal_no_write_witness :
    (getLayerHeight ([lineXY00].map GLine.raw) = none ∧
      processGcodeFixed [lineXY00] 1 = .error .exitOne ∧
      runFixed [lineXY00] 1 = [lineXY00]) ∧
    ((-1:ℚ) ≤ 0 ∧ processGcodeFixed [lineHeaderLH1] (-1) = .error .exitOne ∧
      runFixed [lineHeaderLH1] (-1) = [lineHeaderLH1]) ∧
    (getMinLayerHeight ([lineXY00].map GLine.raw) = none ∧
      processGcodeAdaptive [lineXY00] none = .error .exitOne ∧
      runAdaptive [lineXY00] none = [lineXY00]) ∧
    ((0:ℚ) ≤ 0 ∧ processGcodeAdaptive [lineHeaderLH1] (some 0) = .error .exitOne ∧
      runAdaptive [lineHeaderLH1] (some 0) = [lineHeaderLH1]) := by
  have h1 : getLayerHeight ([lineXY00].map GLine.raw) = none := by
    with_unfolding_all decide
  have h3 : getMinLayerHeight ([lineXY00].map GLine.raw) = none := by
    with_unfolding_all decide
  obtain ⟨hf1, hf2⟩ := c6_fatal_no_write.1 [lineXY00] 1 h1
  obtain ⟨hg1, hg2⟩ := c6_fatal_no_write.2.1 [lineHeaderLH1] (-1) (by norm_num)
  obtain ⟨hh1, hh2⟩ := c6_fatal_no_write.2.2.1 [lineXY00] h3
  obtain ⟨hi1, hi2⟩ := c6_fatal_no_write.2.2.2 [lineHeaderLH1] 0 (le_refl 0)
  exact ⟨⟨h1, hf1, hf2⟩, ⟨by norm_num, hg1, hg2⟩, ⟨h3, hh1, hh2⟩, ⟨le_refl 0, hi1, hi2⟩⟩

/-! ### Claim C7 -/

/-- C7 counterexample: the no-split branch is controlled solely by the
layer-height annotation, which the rewrite copies through unchanged, so a
second run re-splits.  On a 0.3 mm layer at target 0.1 mm the first run
emits 3 passes at 0.1 mm each (one extrusion line per pass); the claim
says every wall segment of that output takes the single-pass branch on a
second run, but the second run still sees `current_layer_height = 0.3 >
0.1` and splits each of the three passes into 3 again: the extrusion-line
count jumps from 3 to 9 (each re-scaled by 1/3), while a single-pass
second run would have kept it at 3. -/
theorem c7_counterexample :
    countE (runAdaptive fileWall03 (some (1/10))) = 3 ∧
    countE (runAdaptive (runAdaptive fileWall03 (some (1/10))) (some (1/10))) = 9 ∧
    (adaptivePlan (3/10) (1/10)).passes = 3 := by
  with_unfolding_all decide

/-- C7 (amended): the second run takes the thin-layer no-split branch only
for segments whose layer-height *annotation* (unchanged by the rewrite) is
at or below the target; segments of thicker layers are subdivided again.
In particular a round trip is stable on a thin-layer file — height 0.08 at
target 0.12 keeps its single extrusion line through two runs — but not on
a file whose layers were split (see the counterexample). -/
theorem c7_round_trip_thin :
    countE fileThin008 = 1 ∧
    countE (runAdaptive fileThin008 (some (12/100))) = 1 ∧
    countE (runAdaptive (runAdaptive fileThin008 (some (12/100))) (some (12/100))) = 1 ∧
    (adaptivePlan (2/25) (12/100)).passes = 1 := by
  with_unfolding_all decide

/-! ### Claim C8 -/

theorem scanBack_isNone (lines : List GLine) (bound j : ℕ)
    (hnone : ∀ k, bound < k → k ≤ j → checkGLine (lines.getD k defaultGLine) = none) :
    scanBack lines bound j = none := by
  induction j with
  | zero => rfl
  | succ j ih =>
    unfold scanBack
    by_cases hb : bound < j + 1
    · rw [if_pos hb, hnone (j+1) hb (le_refl _)]
      exact ih fun k h1 h2 => hnone k h1 (Nat.le_succ_of_le h2)
    · rw [if_neg hb]

theorem scanBack_first (lines : List GLine) (bound j : ℕ) (hb : bound < j) (p : ℚ × ℚ)
    (hc : checkGLine (lines.getD j defaultGLine) = some p) :
    scanBack lines bound j = some p := by
  cases j with
  | zero => omega
  | succ j =>
    unfold scanBack
    rw [if_pos hb, hc]

theorem scanBack_congr (lines1 lines2 : List GLine) (bound j : ℕ)
    (hag : ∀ k, bound < k → k ≤ j →
      lines1.getD k defaultGLine = lines2.getD k defaultGLine) :
    scanBack lines1 bound j = scanBack lines2 bound j := by
  induction j with
  | zero => rfl
  | succ j ih =>
    unfold scanBack
    by_cases hb : bound < j + 1
    · rw [if_pos hb, if_pos hb, hag (j+1) hb (le_refl _)]
      cases checkGLine (lines2.getD (j+1) defaultGLine) with
      | some p => rfl
      | none => exact ih fun k h1 h2 => hag k h1 (Nat.le_succ_of_le h2)
    · rw [if_neg hb, if_neg hb]

theorem scaleELineA_travelTag (mult z pz e : ℚ) (bl : GLine) :
    (scaleELineA mult z pz e bl).travelTag = bl.travelTag := by
  unfold scaleELineA
  dsimp only
  split_ifs <;> rfl

theorem passBodyA_travelTag (mult z pz : ℚ) (blk : List GLine)
    (hblk : ∀ l ∈ blk, l.travelTag = false) :
    ∀ l ∈ passBodyA mult z pz blk, l.travelTag = false := by
  intro l hl
  unfold passBodyA at hl
  rw [List.mem_flatMap] at hl
  obtain ⟨bl, hbl, hin⟩ := hl
  by_cases hc : ((bl.hasG1 || bl.hasG2 || bl.hasG3) && bl.hasE) = true
  · rw [if_pos hc] at hin
    cases he : bl.eCapture with
    | none => rw [he] at hin; simp at hin
    | some e =>
      rw [he] at hin
      rw [List.mem_singleton] at hin
      rw [hin, scaleELineA_travelTag]
      exact hblk bl hbl
  · rw [if_neg hc, List.mem_singleton] at hin
    rw [hin]
    exact hblk bl hbl

theorem passBodyF_travelTag (mult : ℚ) (blk : List GLine)
    (hblk : ∀ l ∈ blk, l.travelTag = false) :
    ∀ l ∈ passBodyF mult blk, l.travelTag = false := by
  intro l hl
  unfold passBodyF at hl
  rw [List.mem_flatMap] at hl
  obtain ⟨bl, hbl, hin⟩ := hl
  by_cases hc : (bl.hasG1 && bl.hasE) = true
  · rw [if_pos hc] at hin
    cases he : bl.eCapture with
    | none => rw [he] at hin; simp at hin
    | some e =>
      rw [he] at hin
      rw [List.mem_singleton] at hin
      rw [hin]
      exact hblk bl hbl
  · rw [if_neg hc, List.mem_singleton] at hin
    rw [hin]
    exact hblk bl hbl

/-- C8 counterexample: in `fileFarXY` the only X/Y-carrying `G1` move sits
at index 1, which is among the 10 lines preceding the wall segment that
starts at index 11 (it is the 10th preceding line), yet the backward scan
finds nothing: `range(i-L-1, max(0, i-L-10), -1)` stops *before* the
exclusive bound `s-10 = 1`, examining only the 9 indices 10..2.  The claim
that a qualifying line within the 10 preceding lines fixes the entry XY is
therefore false. -/
theorem c8_counterexample :
    checkGLine (fileFarXY.getD 1 defaultGLine) = some (5, 7) ∧
    wallStartA (fileFarXY.getD 11 defaultGLine) = true ∧
    11 - 1 ≤ 10 ∧
    findStartPos fileFarXY 11 = none := by
  with_unfolding_all decide

/-- C8 (amended): the backward scan examines at most the **9** lines
preceding the segment start `s` — exactly the indices `j` with
`s - 10 < j < s`, so line index 0 is additionally never examined — taking
the nearest hit; the result depends on no line outside that window, and
when it is `none` the pass emission of either engine produces no
travel-back line for any pass. -/
theorem c8_entry_scan :
    (∀ (lines : List GLine) (s : ℕ),
      (∀ j, s - 10 < j → j < s → checkGLine (lines.getD j defaultGLine) = none) →
      findStartPos lines s = none) ∧
    (∀ (lines : List GLine) (s : ℕ) (p : ℚ × ℚ), 2 ≤ s →
      checkGLine (lines.getD (s - 1) defaultGLine) = some p →
      findStartPos lines s = some p) ∧
    (∀ (lines1 lines2 : List GLine) (s : ℕ),
      (∀ j, s - 10 < j → j < s →
        lines1.getD j defaultGLine = lines2.getD j defaultGLine) →
      findStartPos lines1 s = findStartPos lines2 s) ∧
    (∀ (blk : List GLine) (z h : ℚ) (n : ℤ) (hpp mult : ℚ),
      (∀ l ∈ blk, l.travelTag = false) →
      ∀ l ∈ emitPassesA blk none z h n hpp mult, l.travelTag = false) ∧
    (∀ (blk : List GLine) (z : ℚ) (n : ℤ) (hpp mult : ℚ),
      (∀ l ∈ blk, l.travelTag = false) →
      ∀ l ∈ emitPassesF blk none z n hpp mult, l.travelTag = false) := by
  refine ⟨?_, ?_, ?_, ?_, ?_⟩
  · intro lines s hn
    exact scanBack_isNone lines (s-10) (s-1) fun k h1 h2 => hn k h1 (by omega)
  · intro lines s p hs hc
    exact scanBack_first lines (s-10) (s-1) (by omega) p hc
  · intro lines1 lines2 s hag
    exact scanBack_congr lines1 lines2 (s-10) (s-1) fun k h1 h2 => hag k h1 (by omega)
  · intro blk z h n hpp mult hblk l hl
    unfold emitPassesA at hl
    rw [List.mem_flatMap] at hl
    obtain ⟨p, _, hl⟩ := hl
    rw [show travelOf none p = [] from rfl, List.nil_append, List.mem_cons] at hl
    rcases hl with hl | hl
    · rw [hl]; rfl
    · exact passBodyA_travelTag _ _ _ blk hblk l hl
  · intro blk z n hpp mult hblk l hl
    unfold emitPassesF at hl
    rw [List.mem_flatMap] at hl
    obtain ⟨p, _, hl⟩ := hl
    rw [show travelOf none p = [] from rfl, List.nil_append, List.mem_cons] at hl
    rcases hl with hl | hl
    · rw [hl]; rfl
    · exact passBodyF_travelTag _ blk hblk l hl

/-- Witness for `c8_entry_scan`: in `fileWall03` the travel move at index
3 immediately precedes the segment at index 4 and is found. -/
theorem c8_entry_scan_witness :
    2 ≤ 4 ∧ checkGLine (fileWall03.getD 3 defaultGLine) = some (0, 0) ∧
    findStartPos fileWall03 4 = some (0, 0) := by
  have hc : checkGLine (fileWall03.getD 3 defaultGLine) = some (0, 0) := by
    with_unfolding_all decide
  exact ⟨by norm_num, hc, c8_entry_scan.2.1 fileWall03 4 (0, 0) (by norm_num) hc⟩

/-! ### Claim C9 -/

theorem findSomeEqNoneOfAll {α β : Type} (f : α → Option β) :
    ∀ ls : List α, (∀ l ∈ ls, f l = none) → ls.findSome? f = none
  | [], _ => rfl
  | a :: as, h => by
    rw [List.findSome?_cons, h a (List.mem_cons_self a as)]
    exact findSomeEqNoneOfAll f as fun l hl => h l (List.mem_cons_of_mem a hl)

/-- C9 counterexample: the extractor is claimed to match only lines
beginning with the comment sigil, but `re.search` is unanchored — the
sigil merely has to precede the field somewhere in the line.  A motion
line with a trailing comment is accepted: `"G1 X5 ; layer_height = 0.25"`
yields 0.25 although the line does not begin with `;`. -/
theorem c9_counterexample :
    getLayerHeight ["G1 X5 ; layer_height = 0.25"] = some (1/4) ∧
    "G1 X5 ; layer_height = 0.25".startsWith ";" = false := by
  with_unfolding_all decide

/-- C9 (amended): the extractor returns the value of the *first* line on
which the declaration pattern matches, matching case-insensitively and
accepting integer, decimal and bare-fraction literals, and it signals
not-found when no line matches; but the sigil-plus-field pattern may occur
anywhere in the line, not only at its start (see the counterexample).
The concrete cases also check that a `min_layer_height` line does *not*
satisfy the plain `layer_height` pattern (the sigil anchors the field
name), and the case-insensitive `min` variant. -/
theorem c9_header_extraction :
    (∀ (l : String) (ls : List String) (v : ℚ),
      lineKeyNum "layer_height =" "; layer_height = " l = some v →
      getLayerHeight (l :: ls) = some v) ∧
    (∀ (l : String) (ls : List String),
      lineKeyNum "layer_height =" "; layer_height = " l = none →
      getLayerHeight (l :: ls) = getLayerHeight ls) ∧
    (∀ ls : List String,
      (∀ l ∈ ls, lineKeyNum "layer_height =" "; layer_height = " l = none) →
      getLayerHeight ls = none) ∧
    getLayerHeight ["; layer_height = 0.2", "; layer_height = 0.3"] = some (1/5) ∧
    getLayerHeight ["; LAYER_HEIGHT = 2"] = some 2 ∧
    getLayerHeight ["; layer_height = .25"] = some (1/4) ∧
    getLayerHeight ["; min_layer_height = 0.08"] = none ∧
    getMinLayerHeight ["; MIN_LAYER_HEIGHT = 0.08"] = some (2/25) ∧
    getLayerHeight ["G28 ; home"] = none := by
  refine ⟨?_, ?_, ?_, ?_, ?_, ?_, ?_, ?_, ?_⟩
  · intro l ls v hv
    unfold getLayerHeight
    rw [List.findSome?_cons, hv]
  · intro l ls hn
    unfold getLayerHeight
    rw [List.findSome?_cons, hn]
  · intro ls hall
    exact findSomeEqNoneOfAll _ ls hall
  · with_unfolding_all decide
  · with_unfolding_all decide
  · with_unfolding_all decide
  · with_unfolding_all decide
  · with_unfolding_all decide
  · with_unfolding_all decide

/-- Witness for `c9_header_extraction`: the first-line rule applied to a
concrete two-line stream. -/
theorem c9_header_extraction_witness :
    lineKeyNum "layer_height =" "; layer_height = " "; layer_height = 0.4" = some (2/5) ∧
    getLayerHeight ["; layer_height = 0.4", "G1 X1"] = some (2/5) := by
  have hv : lineKeyNum "layer_height =" "; layer_height = " "; layer_height = 0.4" =
      some (2/5) := by
    with_unfolding_all decide
  exact ⟨hv, c9_header_extraction.1 "; layer_height = 0.4" ["G1 X1"] (2/5) hv⟩

/-! ### Claim C10 -/

/-- C10 (confirmed): the adaptive scan starts with
`current_layer_height = 0.0` [Adaptive:62], and `processGcodeAdaptive`
enters its loop with that height, so a wall segment encountered before any
layer-change annotation is planned with `h = 0`: since `0 > t` is false
for every positive target, the thin-layer branch gives a single pass with
multiplier 1 at the unmodified current Z.  The concrete conjuncts run the
whole engine on a file whose wall segment precedes any layer change: the
single emitted pass sits at the initial Z 0 and the extrusion value is
unchanged. -/
theorem c10_initial_height_zero (t z : ℚ) (ht : 0 < t) :
    adaptivePlan 0 t = ⟨1, 0, 1⟩ ∧
    adaptivePassZ z 0 (adaptivePlan 0 t).heightPerPass (adaptivePlan 0 t).passes 0 = z ∧
    runAdaptive fileNoLayer (some (12/100)) =
      [lineXY00, mkPassZLine 0 0 1, lineTypeOW, scaleELineA 1 0 0 1 lineMoveE] ∧
    (scaleELineA 1 0 0 1 lineMoveE).eCapture = some 1 := by
  have hplan : adaptivePlan 0 t = ⟨1, 0, 1⟩ := by
    unfold adaptivePlan
    rw [if_neg (not_lt.mpr ht.le)]
  refine ⟨hplan, ?_, ?_, ?_⟩
  · rw [hplan]
    simp [adaptivePassZ]
  · with_unfolding_all decide
  · with_unfolding_all decide

/-- Witness for `c10_initial_height_zero` at target 0.12 and current Z
0.7. -/
theorem c10_initial_height_zero_witness :
    (0:ℚ) < 12/100 ∧ adaptivePlan 0 (12/100) = ⟨1, 0, 1⟩ ∧
    adaptivePassZ (7/10) 0 (adaptivePlan 0 (12/100)).heightPerPass
      (adaptivePlan 0 (12/100)).passes 0 = 7/10 :=
  ⟨by norm_num, (c10_initial_height_zero (12/100) (7/10) (by norm_num)).1,
    (c10_initial_height_zero (12/100) (7/10) (by norm_num)).2.1⟩
